import Mathlib

set_option autoImplicit false

/-!
Verification of the webrtc-lab signaling relay (`signal/signaling_server.go`)
and negotiation client (`client/webrtc_client.go`), as a shallow embedding.
-/

/-! ## Message envelope

`SignalingMessage` mirrors the Go struct (identical in both files):
fields `Type`, `Content`, `To`, `From`, serialized under the JSON keys
`type`, `content`, `to`, `from`.  `Type` is a reserved word in Lean, so the
field is named `Ty`.
-/

structure SignalingMessage where
  Ty : String
  Content : String
  To : String
  From : String
deriving DecidableEq

/-! ## JSON layer

A small JSON value type sufficient for the envelope wire format.  The Go code
uses `encoding/json`: `Marshal` of the struct produces an object with the four
tagged keys; `Unmarshal`/`Decode` into the struct reads each key, leaving the
zero value `""` for a missing key and failing when a present key has a
non-string value or the document is not an object.
-/

inductive Json where
  | str (s : String)
  | num (n : Int)
  | obj (fields : List (String × Json))

def lookupField (k : String) : List (String × Json) → Option Json
  | [] => none
  | (k', v) :: rest => if k' = k then some v else lookupField k rest

/-- Reading one string-typed struct field during decode: a missing key yields
the Go zero value `""`; a key bound to a non-string is a decode error. -/
def getStringField (fields : List (String × Json)) (k : String) : Option String :=
  match lookupField k fields with
  | none => some ""
  | some (.str s) => some s
  | some _ => none

/-- `json.Marshal` of a `SignalingMessage`. -/
def encodeSignalingMessage (m : SignalingMessage) : Json :=
  .obj [("type", .str m.Ty), ("content", .str m.Content),
        ("to", .str m.To), ("from", .str m.From)]

/-- `json.Decode` into a `SignalingMessage`. -/
def decodeSignalingMessage : Json → Option SignalingMessage
  | .obj fields =>
    match getStringField fields "type", getStringField fields "content",
          getStringField fields "to", getStringField fields "from" with
    | some t, some c, some dest, some fr => some ⟨t, c, dest, fr⟩
    | _, _, _, _ => none
  | _ => none

/-- C9: for every Envelope value, encoding it to JSON and then decoding the
result reproduces all four fields (type, content, to, from) exactly. -/
theorem C9_envelope_roundtrip (m : SignalingMessage) :
    decodeSignalingMessage (encodeSignalingMessage m) = some m := by
  cases m
  rfl

/-! ## Signaling relay (`signal/signaling_server.go`)

The server keeps `messageStore`, a map from client id to an unbuffered channel
of `SignalingMessage`, guarded by a mutex.  We model a channel by a `Nat`
identity.  `RelayState` tracks the map, the set of receive handlers currently
running (each knows its own channel and client id), and the sequence of
messages handed to each channel.
-/

def alookup {α β : Type} [DecidableEq α] (k : α) : List (α × β) → Option β
  | [] => none
  | (k', v) :: rest => if k' = k then some v else alookup k rest

def eraseKey {α β : Type} [DecidableEq α] (k : α) : List (α × β) → List (α × β)
  | [] => []
  | (k', v) :: rest => if k' = k then eraseKey k rest else (k', v) :: eraseKey k rest

theorem alookup_eraseKey {α β : Type} [DecidableEq α] (p q : α) (l : List (α × β)) :
    alookup p (eraseKey q l) = if p = q then none else alookup p l := by
  induction l with
  | nil => simp [alookup, eraseKey]
  | cons e rest ih =>
    obtain ⟨k', v⟩ := e
    by_cases hq : k' = q
    · subst hq
      by_cases hp : p = k'
      · simp [eraseKey, alookup, hp]
        simpa [hp] using ih
      · simp [eraseKey, alookup, hp, Ne.symm hp, ih]
    · by_cases hp : k' = p
      · subst hp
        simp [eraseKey, alookup, hq]
      · simp [eraseKey, alookup, hq, hp, ih]

structure RelayState where
  messageStore : List (String × Nat)
  active : List (Nat × String)
  inboxes : List (Nat × List SignalingMessage)
deriving DecidableEq

def initialRelay : RelayState := ⟨[], [], []⟩

/-- `receiveHandler`, registration part (lines 61-72): reject an empty client
id with `400 Bad Request`; otherwise create a fresh channel and install it in
`messageStore` (a Go map assignment: any previous entry is overwritten).
Returns the HTTP status written so far (`200` standing for "stream opened"). -/
def subscribe (s : RelayState) (clientID : String) (ch : Nat) : Nat × RelayState :=
  if clientID = "" then (400, s)
  else (200, { messageStore := (clientID, ch) :: eraseKey clientID s.messageStore,
               active := (ch, clientID) :: s.active,
               inboxes := (ch, []) :: s.inboxes })

/-- `receiveHandler`, deferred cleanup (lines 75-80): on stream termination for
any reason, `delete(messageStore, clientID)` runs unconditionally — even when
the entry under `clientID` meanwhile belongs to a replacement subscription —
and the handler stops being active. -/
def terminateStream (s : RelayState) (ch : Nat) (clientID : String) : RelayState :=
  { messageStore := eraseKey clientID s.messageStore,
    active := eraseKey ch s.active,
    inboxes := s.inboxes }

def appendInbox (ch : Nat) (m : SignalingMessage) :
    List (Nat × List SignalingMessage) → List (Nat × List SignalingMessage)
  | [] => []
  | (ch', q) :: rest =>
    if ch' = ch then (ch', q ++ [m]) :: rest else (ch', q) :: appendInbox ch m rest

/-- The channel send `ch <- msg`: the message joins the sequence read by the
subscribed receive handler. -/
def enqueue (s : RelayState) (ch : Nat) (m : SignalingMessage) : RelayState :=
  { s with inboxes := appendInbox ch m s.inboxes }

/-- `sendHandler` (lines 39-57): decode the body (`400` on failure), look the
recipient up in `messageStore` (`404` when absent, nothing enqueued), otherwise
send on the recipient's channel and return (Go writes `200 OK` implicitly). -/
def sendHandler (s : RelayState) (body : Option Json) : Nat × RelayState :=
  match body.bind decodeSignalingMessage with
  | none => (400, s)
  | some msg =>
    match alookup msg.To s.messageStore with
    | some ch => (200, enqueue s ch msg)
    | none => (404, s)

/-! ### Interleavings of relay operations -/

inductive RelayOp where
  | subscribeOp (clientID : String) (ch : Nat)
  | terminateOp (ch : Nat) (clientID : String)
  | deliverOp (body : Option Json)

def applyOp (s : RelayState) : RelayOp → RelayState
  | .subscribeOp id ch => (subscribe s id ch).2
  | .terminateOp ch id => terminateStream s ch id
  | .deliverOp body => (sendHandler s body).2

def runOps (s : RelayState) : List RelayOp → RelayState
  | [] => s
  | op :: rest => runOps (applyOp s op) rest

/-- States the server can actually be in: everything built from the empty
directory by subscriptions, stream terminations and deliveries. -/
inductive Reachable : RelayState → Prop where
  | init : Reachable initialRelay
  | step (s : RelayState) (op : RelayOp) : Reachable s → Reachable (applyOp s op)

theorem alookup_appendInbox (ch : Nat) (m : SignalingMessage)
    (l : List (Nat × List SignalingMessage)) :
    alookup ch (appendInbox ch m l) = (alookup ch l).map (fun q => q ++ [m]) := by
  induction l with
  | nil => simp [appendInbox, alookup]
  | cons e rest ih =>
    obtain ⟨ch', q⟩ := e
    by_cases h : ch' = ch
    · simp [appendInbox, alookup, h]
    · simp [appendInbox, alookup, h, ih]

theorem sendHandler_messageStore (s : RelayState) (body : Option Json) :
    ((sendHandler s body).2).messageStore = s.messageStore := by
  simp only [sendHandler]
  split
  · rfl
  · split
    · simp [enqueue]
    · rfl

theorem no_empty_peer_entry (s : RelayState) (h : Reachable s) :
    alookup "" s.messageStore = none := by
  induction h with
  | init => rfl
  | step t op _ ih =>
    cases op with
    | subscribeOp id ch =>
      by_cases hid : id = ""
      · simpa [applyOp, subscribe, hid] using ih
      · simp [applyOp, subscribe, hid, alookup, alookup_eraseKey, Ne.symm hid, ih]
    | terminateOp ch id =>
      simp [applyOp, terminateStream, alookup_eraseKey, ih]
    | deliverOp body =>
      have hst := sendHandler_messageStore t body
      simpa [applyOp, hst] using ih

/-- C5: for every POST /send request: an unparseable body gets 400 Bad
Request; a parseable body whose `to` has no directory entry gets 404 Not Found
with nothing enqueued (state unchanged); otherwise the envelope is appended to
the recipient's inbox and the relay responds 200 OK. -/
theorem C5_sendHandler_cases :
    (∀ (s : RelayState) (body : Option Json),
      body.bind decodeSignalingMessage = none → sendHandler s body = (400, s)) ∧
    (∀ (s : RelayState) (body : Option Json) (m : SignalingMessage),
      body.bind decodeSignalingMessage = some m →
      alookup m.To s.messageStore = none →
      sendHandler s body = (404, s)) ∧
    (∀ (s : RelayState) (body : Option Json) (m : SignalingMessage) (ch : Nat)
        (q : List SignalingMessage),
      body.bind decodeSignalingMessage = some m →
      alookup m.To s.messageStore = some ch →
      alookup ch s.inboxes = some q →
      sendHandler s body = (200, enqueue s ch m) ∧
      alookup ch (enqueue s ch m).inboxes = some (q ++ [m])) := by
  refine ⟨?_, ?_, ?_⟩
  · intro s body h
    simp [sendHandler, h]
  · intro s body m hd hl
    simp [sendHandler, hd, hl]
  · intro s body m ch q hd hl hq
    refine ⟨by simp [sendHandler, hd, hl], ?_⟩
    simp [enqueue, alookup_appendInbox, hq]

theorem C5_sendHandler_cases_witness :
    sendHandler ⟨[("answer-peer-1", 1)], [(1, "answer-peer-1")], [(1, [])]⟩
        (some (encodeSignalingMessage ⟨"offer", "sdp", "answer-peer-1", "offer-peer-1"⟩)) =
      (200, enqueue ⟨[("answer-peer-1", 1)], [(1, "answer-peer-1")], [(1, [])]⟩ 1
        ⟨"offer", "sdp", "answer-peer-1", "offer-peer-1"⟩) ∧
    alookup 1 (enqueue ⟨[("answer-peer-1", 1)], [(1, "answer-peer-1")], [(1, [])]⟩ 1
        ⟨"offer", "sdp", "answer-peer-1", "offer-peer-1"⟩).inboxes =
      some ([] ++ [⟨"offer", "sdp", "answer-peer-1", "offer-peer-1"⟩]) :=
  C5_sendHandler_cases.2.2 _ _ _ 1 [] rfl rfl rfl

/-! ### The receive stream loop -/

inductive RecvEvent where
  | message (m : SignalingMessage) (encodeOk : Bool)
  | channelClosed
  | idleTimeout

structure RecvStepResult where
  statusWritten : Option Nat
  terminated : Bool
  emitted : Option SignalingMessage
deriving DecidableEq

/-- The idle window of the select loop: `time.After(120 * time.Second)`. -/
def idleTimeoutSeconds : Nat := 120

/-- One iteration of the `receiveHandler` select loop (lines 82-104): a
received message is encoded onto the stream (terminating only on an encode
failure), a closed channel ends the stream, and the timeout arm writes
`204 No Content` and ends the stream. -/
def receiveStep : RecvEvent → RecvStepResult
  | .message m true => ⟨none, false, some m⟩
  | .message _ false => ⟨none, true, none⟩
  | .channelClosed => ⟨none, true, none⟩
  | .idleTimeout => ⟨some 204, true, none⟩

/-- C6: 120 seconds without an envelope terminate the receive stream with
status 204 No Content and no error, and stream termination for any reason
removes the directory entry for that peerID. -/
theorem C6_idle_timeout_and_cleanup :
    idleTimeoutSeconds = 120 ∧
    receiveStep .idleTimeout = ⟨some 204, true, none⟩ ∧
    (∀ (s : RelayState) (ch : Nat) (clientID : String),
      alookup clientID (terminateStream s ch clientID).messageStore = none) := by
  refine ⟨rfl, rfl, ?_⟩
  intro s ch clientID
  simp [terminateStream, alookup_eraseKey]

/-! ### Lock scope of the handlers

The mutex-relevant actions of each handler, in program order.  `sendHandler`
takes the mutex, releases it via `defer` (so the unlock is its last action),
and performs the map lookup and the blocking channel send in between.  The
`receiveHandler` takes the mutex separately around the map insert and around
the deferred map delete, closing the channel only after the unlock.
-/

inductive LockEvent where
  | lock
  | unlock
  | mapLookup
  | mapInsert
  | mapDelete
  | chanSend
  | chanClose
  | respond (status : Nat)
deriving DecidableEq

/-- `sendHandler` (lines 48-56) as its sequence of lock/map/channel actions. -/
def sendHandlerEvents (recipientFound : Bool) : List LockEvent :=
  [.lock, .mapLookup] ++ (if recipientFound then [.chanSend] else [.respond 404]) ++ [.unlock]

/-- `receiveHandler` registration (lines 69-72). -/
def subscribeEvents : List LockEvent := [.lock, .mapInsert, .unlock]

/-- `receiveHandler` deferred cleanup (lines 75-80). -/
def cleanupEvents : List LockEvent := [.lock, .mapDelete, .unlock, .chanClose]

/-- The events of a trace that happen while the mutex is held. -/
def eventsUnderLock : Bool → List LockEvent → List LockEvent
  | _, [] => []
  | _, .lock :: rest => eventsUnderLock true rest
  | _, .unlock :: rest => eventsUnderLock false rest
  | true, e :: rest => e :: eventsUnderLock true rest
  | false, _ :: rest => eventsUnderLock false rest

/-- C7 fails on the deliver path: the blocking channel send in `sendHandler`
happens between `mu.Lock()` and the deferred `mu.Unlock()`, i.e. inside the
mutual-exclusion section, not outside it. -/
theorem C7_counterexample :
    LockEvent.chanSend ∈ eventsUnderLock false (sendHandlerEvents true) := by
  decide

/-- C7 (amended): subscription holds the directory mutex only for the map
create and the termination delete (the channel close happens after the
unlock), but the deliver path holds the mutex across the map lookup AND the
blocking enqueue (or the 404 response). -/
theorem C7_lock_scope :
    eventsUnderLock false (sendHandlerEvents true) = [.mapLookup, .chanSend] ∧
    eventsUnderLock false (sendHandlerEvents false) = [.mapLookup, .respond 404] ∧
    eventsUnderLock false subscribeEvents = [.mapInsert] ∧
    eventsUnderLock false cleanupEvents = [.mapDelete] := by
  decide

/-- C8: a POST /send body that omits `to` decodes with `to = ""` and gets
404 Not Found: subscribe rejects an empty peerID with 400 Bad Request, so no
reachable directory state has an entry under the empty identifier. -/
theorem C8_missing_to_field :
    (∀ (s : RelayState) (ch : Nat), subscribe s "" ch = (400, s)) ∧
    (∀ (s : RelayState), Reachable s → alookup "" s.messageStore = none) ∧
    (∀ (s : RelayState) (fields : List (String × Json)) (m : SignalingMessage),
      Reachable s →
      lookupField "to" fields = none →
      decodeSignalingMessage (Json.obj fields) = some m →
      m.To = "" ∧ sendHandler s (some (Json.obj fields)) = (404, s)) := by
  refine ⟨fun s ch => by simp [subscribe], no_empty_peer_entry, ?_⟩
  intro s fields m hreach hto hdec
  have hts : getStringField fields "to" = some "" := by simp [getStringField, hto]
  have hstore := no_empty_peer_entry s hreach
  rcases h1 : getStringField fields "type" with _ | t
  · simp [decodeSignalingMessage, h1] at hdec
  rcases h2 : getStringField fields "content" with _ | c
  · simp [decodeSignalingMessage, h1, h2] at hdec
  rcases h4 : getStringField fields "from" with _ | fr
  · simp [decodeSignalingMessage, h1, h2, hts, h4] at hdec
  have hdec' : SignalingMessage.mk t c "" fr = m := by
    simpa [decodeSignalingMessage, h1, h2, hts, h4] using hdec
  subst hdec'
  refine ⟨rfl, ?_⟩
  simp [sendHandler, decodeSignalingMessage, h1, h2, hts, h4, hstore]

theorem C8_missing_to_field_witness :
    (⟨"offer", "x", "", "q"⟩ : SignalingMessage).To = "" ∧
    sendHandler initialRelay
        (some (Json.obj [("type", Json.str "offer"), ("content", Json.str "x"),
                         ("from", Json.str "q")])) =
      (404, initialRelay) :=
  C8_missing_to_field.2.2 initialRelay _ _ Reachable.init rfl rfl

/-- C3 fails under subscription replacement: after `subscribe "p" 1`,
`subscribe "p" 2` and the termination of the replaced stream 1, the second
subscription is still active but the deferred cleanup of stream 1 deleted the
directory entry, so a deliver to "p" fails with 404 RecipientNotFound. -/
theorem C3_counterexample :
    (2, "p") ∈ (runOps initialRelay
        [.subscribeOp "p" 1, .subscribeOp "p" 2, .terminateOp 1 "p"]).active ∧
    (sendHandler
        (runOps initialRelay
          [.subscribeOp "p" 1, .subscribeOp "p" 2, .terminateOp 1 "p"])
        (some (encodeSignalingMessage ⟨"offer", "sdp", "p", "q"⟩))).1 = 404 := by
  decide

/-- C3 (amended): the relay never enqueues for a peer without a directory
entry (the deliver fails with 404 and changes nothing), and once an entry
exists a deliver targeting that peer can only find it gone after some receive
stream for that peerID terminated — possibly a replaced stream, whose cleanup
removes the entry of its replacement, so a deliver may fail while the newer
subscription is still active. -/
theorem C3_deliver_failure_requires_termination :
    (∀ (s : RelayState) (body : Option Json) (m : SignalingMessage),
      body.bind decodeSignalingMessage = some m →
      alookup m.To s.messageStore = none →
      sendHandler s body = (404, s)) ∧
    (∀ (ops : List RelayOp) (s : RelayState) (p : String),
      (alookup p s.messageStore).isSome = true →
      alookup p (runOps s ops).messageStore = none →
      ∃ ch, RelayOp.terminateOp ch p ∈ ops) := by
  constructor
  · intro s body m hd hl
    simp [sendHandler, hd, hl]
  · intro ops
    induction ops with
    | nil =>
      intro s p hsome hnone
      simp [runOps] at hnone
      rw [hnone] at hsome
      simp at hsome
    | cons op rest ih =>
      intro s p hsome hnone
      have hnone' : alookup p (runOps (applyOp s op) rest).messageStore = none := hnone
      cases op with
      | subscribeOp id ch =>
        have hsome' : (alookup p ((subscribe s id ch).2).messageStore).isSome = true := by
          by_cases hid : id = ""
          · simpa [subscribe, hid] using hsome
          · by_cases hp : id = p
            · subst hp
              simp [subscribe, hid, alookup]
            · have hpi : ¬p = id := fun h => hp h.symm
              simp [subscribe, hid, alookup, hp, alookup_eraseKey, hpi]
              exact hsome
        obtain ⟨ch', hmem⟩ := ih ((subscribe s id ch).2) p hsome' hnone'
        exact ⟨ch', List.mem_cons_of_mem _ hmem⟩
      | terminateOp ch id =>
        by_cases hp : id = p
        · exact ⟨ch, hp ▸ List.mem_cons_self _ _⟩
        · have hsome' : (alookup p (terminateStream s ch id).messageStore).isSome = true := by
            have hpi : ¬p = id := fun h => hp h.symm
            simp [terminateStream, alookup_eraseKey, hpi]
            exact hsome
          obtain ⟨ch', hmem⟩ := ih (terminateStream s ch id) p hsome' hnone'
          exact ⟨ch', List.mem_cons_of_mem _ hmem⟩
      | deliverOp body =>
        have hsome' : (alookup p ((sendHandler s body).2).messageStore).isSome = true := by
          rw [sendHandler_messageStore]
          exact hsome
        obtain ⟨ch', hmem⟩ := ih ((sendHandler s body).2) p hsome' hnone'
        exact ⟨ch', List.mem_cons_of_mem _ hmem⟩

theorem C3_deliver_failure_requires_termination_witness :
    sendHandler initialRelay (some (encodeSignalingMessage ⟨"offer", "sdp", "p", "q"⟩)) =
      (404, initialRelay) ∧
    ∃ ch, RelayOp.terminateOp ch "p" ∈ [RelayOp.terminateOp 1 "p"] :=
  ⟨C3_deliver_failure_requires_termination.1 initialRelay _ _ rfl rfl,
   C3_deliver_failure_requires_termination.2 [RelayOp.terminateOp 1 "p"]
     (subscribe initialRelay "p" 1).2 "p" rfl rfl⟩


/-! ## Negotiation client (`client/webrtc_client.go`)

The client's negotiation loop (`main`, lines 217-291) consumes envelopes from
`remoteSignal` one at a time and drives the pion engine.  We record every
engine call and every outgoing envelope as an event, in program order, and
track the mutable locals of `main` that the loop reads and writes.  Engine
outputs (the created offer/answer SDPs) are opaque and passed in as
parameters.
-/

def offerPeerID : String := "offer-peer-1"

def answerPeerID : String := "answer-peer-1"

inductive Role where
  | offerer
  | answerer
deriving DecidableEq

inductive EngineEvent where
  | createOffer (sdp : String)
  | createAnswer (sdp : String)
  | setLocalDescription (sdp : String)
  | setRemoteDescription (ty : String) (sdp : String)
  | addICECandidate (c : String)
  | sendSignal (m : SignalingMessage)
deriving DecidableEq

structure ClientState where
  candidateReceivedBeforeOfferOrAnswer : List String
  offerReceived : Bool
  answerReceived : Bool
  remoteCandidates : List String
  events : List EngineEvent
deriving DecidableEq

def initClientState : ClientState := ⟨[], false, false, [], []⟩

/-- One iteration of the negotiation loop (lines 217-291), mirroring the
if/else chain on the received envelope's type, the role and the
`offerReceived`/`answerReceived` flags.  `answerSDP` is the SDP the engine
returns from `CreateAnswer`. -/
def processMessage (role : Role) (answerSDP : String) (s : ClientState)
    (m : SignalingMessage) : ClientState :=
  if m.Ty = "offer" ∧ role = .answerer then
    { s with
      events := s.events ++
        [.setRemoteDescription "offer" m.Content, .createAnswer answerSDP,
         .setLocalDescription answerSDP,
         .sendSignal ⟨"answer", answerSDP, offerPeerID, answerPeerID⟩] ++
        s.candidateReceivedBeforeOfferOrAnswer.map .addICECandidate,
      offerReceived := true }
  else if m.Ty = "candidate" ∧ role = .answerer ∧ s.offerReceived = false then
    { s with
      candidateReceivedBeforeOfferOrAnswer :=
        s.candidateReceivedBeforeOfferOrAnswer ++ [m.Content],
      remoteCandidates := s.remoteCandidates ++ [m.Content] }
  else if m.Ty = "answer" ∧ role = .offerer then
    { s with
      events := s.events ++ [.setRemoteDescription "answer" m.Content],
      answerReceived := true }
  else if m.Ty = "candidate" ∧ role = .offerer ∧ s.answerReceived = false then
    { s with
      candidateReceivedBeforeOfferOrAnswer :=
        s.candidateReceivedBeforeOfferOrAnswer ++ [m.Content],
      remoteCandidates := s.remoteCandidates ++ [m.Content] }
  else if m.Ty = "candidate" then
    { s with
      events := s.events ++ [.addICECandidate m.Content],
      remoteCandidates := s.remoteCandidates ++ [m.Content] }
  else s

/-- The offerer's pre-loop negotiation steps (lines 187-216): create the
offer, set it as local description, abort when its SDP is empty, send the
offer envelope, then iterate over `candidateReceivedBeforeOfferOrAnswer` —
which at this point in `main` has never been appended to. -/
def offererStart (offerSDP : String) (s : ClientState) : Option ClientState :=
  if offerSDP = "" then none
  else some { s with
    events := s.events ++
      [.createOffer offerSDP, .setLocalDescription offerSDP,
       .sendSignal ⟨"offer", offerSDP, answerPeerID, offerPeerID⟩] ++
      s.candidateReceivedBeforeOfferOrAnswer.map .addICECandidate }

/-- The offerer process: pre-loop offer creation, then the negotiation loop
over the received envelopes. -/
def runOfferer (offerSDP answerSDP : String) (msgs : List SignalingMessage) :
    Option ClientState :=
  (offererStart offerSDP initClientState).map
    (fun s => msgs.foldl (processMessage .offerer answerSDP) s)

/-- The answerer process: the negotiation loop over the received envelopes. -/
def runAnswerer (answerSDP : String) (msgs : List SignalingMessage) : ClientState :=
  msgs.foldl (processMessage .answerer answerSDP) initClientState

def isAddICECandidate : EngineEvent → Bool
  | .addICECandidate _ => true
  | _ => false

/-- C1 fails in the offerer role: a candidate received before the answer is
buffered, but the branch that receives the answer envelope only sets the
remote description; the replay loop over the buffer (lines 209-215) runs
before the negotiation loop starts, when the buffer is necessarily empty, so
the buffered candidate is never handed to the engine and never cleared. -/
theorem C1_offerer_never_replays_buffered_candidates :
    (runOfferer "sdp-A" "unused"
        [⟨"candidate", "cand-1", offerPeerID, answerPeerID⟩,
         ⟨"answer", "sdp-B", offerPeerID, answerPeerID⟩]).map
      (fun s => (s.events.filter isAddICECandidate,
                 s.candidateReceivedBeforeOfferOrAnswer, s.answerReceived)) =
      some ([], ["cand-1"], true) := by
  decide

/-- C2 fails on "clearing the buffer": after the answerer processes two
buffered candidates and then the offer, the buffer still holds both. -/
theorem C2_counterexample :
    (runAnswerer "sdp-ans"
        [⟨"candidate", "c1", answerPeerID, offerPeerID⟩,
         ⟨"candidate", "c2", answerPeerID, offerPeerID⟩,
         ⟨"offer", "sdp-off", answerPeerID, offerPeerID⟩]).candidateReceivedBeforeOfferOrAnswer
      = ["c1", "c2"] ∧ (["c1", "c2"] : List String) ≠ [] := by
  decide

/-- C2 (amended): when the answerer receives an offer envelope it sets the
remote description from the payload, creates the local answer and sets it as
local description, delivers the answer envelope to the offer peer, then
replays every buffered candidate to the engine in arrival order — but the
buffer is retained rather than cleared; the `offerReceived` flag is what stops
further buffering. -/
theorem C2_answerer_offer_processing (s : ClientState) (answerSDP : String)
    (m : SignalingMessage) (hty : m.Ty = "offer") :
    (processMessage .answerer answerSDP s m).events =
      s.events ++
        [.setRemoteDescription "offer" m.Content, .createAnswer answerSDP,
         .setLocalDescription answerSDP,
         .sendSignal ⟨"answer", answerSDP, offerPeerID, answerPeerID⟩] ++
        s.candidateReceivedBeforeOfferOrAnswer.map .addICECandidate ∧
    (processMessage .answerer answerSDP s m).offerReceived = true ∧
    (processMessage .answerer answerSDP s m).candidateReceivedBeforeOfferOrAnswer =
      s.candidateReceivedBeforeOfferOrAnswer := by
  simp [processMessage, hty]

theorem C2_answerer_offer_processing_witness :
    (processMessage .answerer "ans" ⟨["c1"], false, false, ["c1"], []⟩
        ⟨"offer", "sdp-off", answerPeerID, offerPeerID⟩).events =
      [] ++
        [.setRemoteDescription "offer" "sdp-off", .createAnswer "ans",
         .setLocalDescription "ans",
         .sendSignal ⟨"answer", "ans", offerPeerID, answerPeerID⟩] ++
        (["c1"] : List String).map EngineEvent.addICECandidate ∧
    (processMessage .answerer "ans" ⟨["c1"], false, false, ["c1"], []⟩
        ⟨"offer", "sdp-off", answerPeerID, offerPeerID⟩).offerReceived = true ∧
    (processMessage .answerer "ans" ⟨["c1"], false, false, ["c1"], []⟩
        ⟨"offer", "sdp-off", answerPeerID, offerPeerID⟩).candidateReceivedBeforeOfferOrAnswer =
      ["c1"] :=
  C2_answerer_offer_processing _ _ _ rfl

/-! ## The subscription loop (`listenForSignaling`, lines 342-367) -/

/-- One long-poll stream as the client decodes it: each element is one decode
attempt — `some` message, or `none` for a decode error (which includes the EOF
after the relay's 204 idle-timeout close). -/
def readStream : List (Option SignalingMessage) → List SignalingMessage
  | [] => []
  | none :: _ => []
  | some m :: rest =>
    if m.Ty = "heartbeat" then readStream rest else m :: readStream rest

/-- `listenForSignaling`: one `http.Get`, one decode loop that ends with
`break` on the first decode error, then the function returns.  Nothing
re-subscribes, so at most the first stream is ever consumed; its non-heartbeat
messages are the ones put on `remoteSignal` for the negotiation loop. -/
def listenForSignaling : List (List (Option SignalingMessage)) → List SignalingMessage
  | [] => []
  | firstStream :: _ => readStream firstStream

/-- C4 fails: once the first stream terminates, the envelopes of any later
stream are never fed to the negotiation loop. -/
theorem C4_counterexample :
    listenForSignaling
        [[some ⟨"offer", "s1", offerPeerID, answerPeerID⟩, none],
         [some ⟨"candidate", "c1", offerPeerID, answerPeerID⟩, none]] =
      [⟨"offer", "s1", offerPeerID, answerPeerID⟩] ∧
    (⟨"candidate", "c1", offerPeerID, answerPeerID⟩ : SignalingMessage) ∉
      listenForSignaling
        [[some ⟨"offer", "s1", offerPeerID, answerPeerID⟩, none],
         [some ⟨"candidate", "c1", offerPeerID, answerPeerID⟩, none]] := by
  decide

/-- C4 (amended): the subscription loop consumes exactly one long-poll stream
and exits on its first decode failure without re-subscribing: what it feeds to
the negotiation loop depends only on the first stream, never on later ones. -/
theorem C4_no_resubscription (first : List (Option SignalingMessage))
    (rest rest' : List (List (Option SignalingMessage))) :
    listenForSignaling (first :: rest) = listenForSignaling (first :: rest') := rfl

/-! ## TURN credential wiring (`main`, lines 37, 55-80) -/

/-- The outer `var turnPassword string` keeps its zero value `""` forever: the
`turnPassword := os.Getenv("TURN_PASSWORD")` inside the `if *withTurn` block
declares a NEW variable that shadows it, the block only checks that shadowed
copy against `""` (exiting the process when empty, modeled as `none`), and the
`webrtc.Configuration` `Credential` field then reads the outer variable. -/
def credentialPassedToEngine (withTurn : Bool) (turnPasswordEnv : String) :
    Option String :=
  let turnPassword : String := ""
  if withTurn && turnPasswordEnv == "" then none
  else some turnPassword

/-- C10: in every run with `-with-turn=true` and a non-empty `TURN_PASSWORD`,
the credential handed to the ICE server configuration is the empty string:
the environment value only ever reaches the shadowing inner variable. -/
theorem C10_turn_credential_is_shadowed (env : String) (h : env ≠ "") :
    credentialPassedToEngine true env = some "" := by
  simp [credentialPassedToEngine, h]

theorem C10_turn_credential_is_shadowed_witness :
    credentialPassedToEngine true "s3cret-pw" = some "" :=
  C10_turn_credential_is_shadowed "s3cret-pw" (by decide)
